import Mathlib

/-!
# Laforge core — verification of the identity, hashing and merge engine

Shallow embedding of the laforge `core` package (Go) and proofs about it.

Layers:
1. 64-bit arithmetic and the XXH64 hash (the `cespare/xxhash` library the
   core calls through `xxhash.Sum64String` / `xxhash.Sum64`).
2. Go standard-library helpers the core uses: `fmt` value rendering,
   `path.Clean` / `path.Dir` / `path.Base` / `path.Join`, `strings.Split`.
3. The core data model (Network, DNSRecord, Command, RemoteFile,
   ProvisionedNetwork, ProvisioningStep, Connection, Metadata) and its
   operations (`Hash`, `Swap`, `SetID`, `ParentLaforgeID`, `TypeByPath`,
   `IsGlobalType`, `ValidateGenericPath`, `Label`, the SSH branch of
   `UploadExecuteAndDelete`).
4. Theorems settling the specification claims.

Conventions: Go struct fields are embedded with lowerCamel names (`id`,
`caller`, `onConflict`, ...) to avoid clashes between a field and the type
of the same name; method and function names keep the Go names. Machine
integers are `Nat` reduced mod 2^64 where overflow matters. Go pointers
become `Option` when the code checks them for nil, and plain values when
the code unconditionally dereferences them. Types whose definition is not
part of the sources at hand are modelled from the spec and marked so.
-/

/-! ## Layer 1: 64-bit arithmetic and XXH64 -/

/-- Truncation to 64 bits, the implicit wrap-around of Go `uint64`. -/
def u64 (n : Nat) : Nat := n % 18446744073709551616

/-- XXH64 prime 1. -/
def xxPrime1 : Nat := 11400714785074694791

/-- XXH64 prime 2. -/
def xxPrime2 : Nat := 14029467366897019727

/-- XXH64 prime 3. -/
def xxPrime3 : Nat := 1609587929392839161

/-- XXH64 prime 4. -/
def xxPrime4 : Nat := 9986255151534725405

/-- XXH64 prime 5. -/
def xxPrime5 : Nat := 2870177450012600261

/-- 64-bit rotate left. -/
def rotl64 (a r : Nat) : Nat := u64 ((a <<< r) ||| (a >>> (64 - r)))

/-- The XXH64 accumulator round: `rotl64(acc + lane*P2, 31) * P1`. -/
def xxRound (acc lane : Nat) : Nat :=
  u64 (rotl64 (u64 (acc + u64 (lane * xxPrime2))) 31 * xxPrime1)

/-- The XXH64 merge round folding one accumulator into the digest. -/
def xxMergeRound (h v : Nat) : Nat :=
  u64 (u64 ((h ^^^ xxRound 0 v) * xxPrime1) + xxPrime4)

/-- Little-endian read of a whole byte list as one number. -/
def readLE (bs : List Nat) : Nat := bs.foldr (fun b acc => acc * 256 + b) 0

/-- XXH64 inner loop over 32-byte stripes; fuel-driven so the kernel can
evaluate it (fuel is the byte count, which bounds the iterations). -/
def xxBlocks (fuel : Nat) (v1 v2 v3 v4 : Nat) (bs : List Nat) :
    Nat × Nat × Nat × Nat × List Nat :=
  match fuel with
  | 0 => (v1, v2, v3, v4, bs)
  | Nat.succ f =>
    if 32 ≤ bs.length then
      let l1 := readLE (bs.take 8)
      let l2 := readLE ((bs.drop 8).take 8)
      let l3 := readLE ((bs.drop 16).take 8)
      let l4 := readLE ((bs.drop 24).take 8)
      xxBlocks f (xxRound v1 l1) (xxRound v2 l2) (xxRound v3 l3) (xxRound v4 l4)
        (bs.drop 32)
    else (v1, v2, v3, v4, bs)

/-- XXH64 tail loop over remaining 8-byte words. -/
def xxTail8 (fuel : Nat) (h : Nat) (bs : List Nat) : Nat × List Nat :=
  match fuel with
  | 0 => (h, bs)
  | Nat.succ f =>
    if 8 ≤ bs.length then
      let k1 := xxRound 0 (readLE (bs.take 8))
      xxTail8 f (u64 (u64 (rotl64 (h ^^^ k1) 27 * xxPrime1) + xxPrime4)) (bs.drop 8)
    else (h, bs)

/-- XXH64 final avalanche. -/
def xxAvalanche (h0 : Nat) : Nat :=
  let h1 := u64 ((h0 ^^^ (h0 >>> 33)) * xxPrime2)
  let h2 := u64 ((h1 ^^^ (h1 >>> 29)) * xxPrime3)
  h2 ^^^ (h2 >>> 32)

/-- The XXH64 hash of a byte sequence (the digest `xxhash.Sum64` computes). -/
def xxh64 (seed : Nat) (bs : List Nat) : Nat :=
  let len := bs.length
  let hrest :=
    if 32 ≤ len then
      let acc := xxBlocks len (u64 (seed + xxPrime1 + xxPrime2))
        (u64 (seed + xxPrime2)) (u64 seed)
        (u64 (seed + 18446744073709551616 - xxPrime1)) bs
      match acc with
      | (v1, v2, v3, v4, rest) =>
        let h0 := u64 (rotl64 v1 1 + rotl64 v2 7 + rotl64 v3 12 + rotl64 v4 18)
        (xxMergeRound (xxMergeRound (xxMergeRound (xxMergeRound h0 v1) v2) v3) v4,
          rest)
    else (u64 (seed + xxPrime5), bs)
  let h1 := u64 (hrest.1 + len)
  let t8 := xxTail8 hrest.2.length h1 hrest.2
  let t4 :=
    if 4 ≤ t8.2.length then
      (u64 (u64 (rotl64 (t8.1 ^^^ u64 (readLE (t8.2.take 4) * xxPrime1)) 23 *
        xxPrime2) + xxPrime3), t8.2.drop 4)
    else t8
  let hb := t4.2.foldl
    (fun h b => u64 (rotl64 (h ^^^ u64 (b * xxPrime5)) 11 * xxPrime1)) t4.1
  xxAvalanche hb

/-- UTF-8 encoding of a single character, as byte values. -/
def encodeCharUTF8 (c : Char) : List Nat :=
  let n := c.toNat
  if n < 128 then [n]
  else if n < 2048 then [192 + n / 64, 128 + n % 64]
  else if n < 65536 then [224 + n / 4096, 128 + (n / 64) % 64, 128 + n % 64]
  else [240 + n / 262144, 128 + (n / 4096) % 64, 128 + (n / 64) % 64, 128 + n % 64]

/-- Concatenation of byte chunks. -/
def concatBytes : List (List Nat) → List Nat
  | [] => []
  | l :: ls => l ++ concatBytes ls

/-- The UTF-8 bytes of a string, as Go sees a `string`'s bytes. -/
def utf8Bytes (s : String) : List Nat := concatBytes (s.data.map encodeCharUTF8)

/-- `xxhash.Sum64String`: XXH64 with seed 0 over the string's UTF-8 bytes. -/
def Sum64String (s : String) : Nat := xxh64 0 (utf8Bytes s)

/-! ## Layer 2: Go standard-library helpers -/

/-- Go `fmt` rendering of a `bool` under the `%v`/`%t` verbs. -/
def goBool (b : Bool) : String := if b then "true" else "false"

/-- Go `fmt` rendering of a `uint64` under `%v`: decimal. -/
def goNat (n : Nat) : String := toString n

/-- Go `fmt` rendering of an `int` under `%v`/`%d`: decimal with sign. -/
def goInt (i : Int) : String := toString i

/-- Go `fmt` rendering of an integer under `%x`: lowercase hex. -/
def goHex (n : Nat) : String := String.mk (Nat.toDigits 16 n)

/-- Join strings with a separator (Go `strings.Join`). -/
def goStringsJoin (sep : String) : List String → String
  | [] => ""
  | [x] => x
  | x :: y :: xs => x ++ sep ++ goStringsJoin sep (y :: xs)

/-- Lexicographic strict order on character lists, mirroring Go `<` on strings
(byte order; our corpus is ASCII, where char order and byte order agree). -/
def charListLt : List Char → List Char → Bool
  | [], [] => false
  | [], _ :: _ => true
  | _ :: _, [] => false
  | a :: as, b :: bs => if a < b then true else if b < a then false else charListLt as bs

/-- Strict string order used by Go `fmt` when sorting map keys. -/
def strLt (a b : String) : Bool := charListLt a.data b.data

/-- Insertion step of the key sort applied by Go `fmt` to maps. -/
def insertByKey (kv : String × String) :
    List (String × String) → List (String × String)
  | [] => [kv]
  | x :: xs => if strLt x.1 kv.1 then x :: insertByKey kv xs else kv :: x :: xs

/-- Sort an association list by key, as Go `fmt` prints maps in key order. -/
def sortByKey (l : List (String × String)) : List (String × String) :=
  l.foldr insertByKey []

/-- Go `fmt` rendering of a `[]string` under `%v`: `[a b c]`. -/
def goStringSlice (xs : List String) : String :=
  "[" ++ goStringsJoin " " xs ++ "]"

/-- Go `fmt` rendering of a `map[string]string` under `%v`:
`map[k1:v1 k2:v2]` with keys sorted. -/
def goStringMap (m : List (String × String)) : String :=
  "map[" ++ goStringsJoin " " ((sortByKey m).map (fun kv => kv.1 ++ ":" ++ kv.2)) ++ "]"

/-- Go `strings.Split(s, "/")`: split on every slash, keeping empty parts. -/
def splitSlash : List Char → List (List Char)
  | [] => [[]]
  | c :: cs =>
    if c = '/' then [] :: splitSlash cs
    else
      match splitSlash cs with
      | [] => [[c]]
      | p :: ps => (c :: p) :: ps

/-- Go `path.IsAbs`: the path starts with a slash. -/
def goIsAbs (s : String) : Bool :=
  match s.data with
  | '/' :: _ => true
  | _ => false

/-- One step of the lexical cleaning loop of Go `path.Clean` over the
slash-separated elements: drop empty and `.` elements, let `..` backtrack. -/
def cleanPush (rooted : Bool) (acc : List (List Char)) (e : List Char) :
    List (List Char) :=
  if e = [] ∨ e = ['.'] then acc
  else if e = ['.', '.'] then
    match acc.getLast? with
    | some l => if l = ['.', '.'] then acc ++ [e] else acc.dropLast
    | none => if rooted then [] else [e]
  else acc ++ [e]

/-- The cleaned elements of a path, per Go `path.Clean`'s lexical algorithm. -/
def cleanSegs (rooted : Bool) (elems : List (List Char)) : List (List Char) :=
  elems.foldl (cleanPush rooted) []

/-- Join character-list path elements with slashes. -/
def joinSegs : List (List Char) → List Char
  | [] => []
  | [x] => x
  | x :: y :: xs => x ++ '/' :: joinSegs (y :: xs)

/-- Go `path.Clean` on the path's characters: lexical simplification;
empty input cleans to `.`, a rooted path keeps its leading slash. -/
def goCleanChars : List Char → String
  | [] => "."
  | c :: cs =>
    if c = '/' then String.mk ('/' :: joinSegs (cleanSegs true (splitSlash (c :: cs))))
    else
      match joinSegs (cleanSegs false (splitSlash (c :: cs))) with
      | [] => "."
      | b :: bs => String.mk (b :: bs)

/-- Go `path.Clean`. -/
def goClean (s : String) : String := goCleanChars s.data

/-- The prefix of a character list up to and including its last slash
(empty when there is no slash), as Go `path.Split` computes `dir`. -/
def takeToLastSlash (cs : List Char) : List Char :=
  ((cs.reverse.dropWhile (fun c => ¬(c = '/'))).reverse)

/-- Go `path.Dir`: everything up to the last slash, cleaned. -/
def goDir (s : String) : String := goClean (String.mk (takeToLastSlash s.data))

/-- Go `path.Base`: the last element of the path after stripping trailing
slashes; `.` for the empty path, `/` when only slashes remain. -/
def goBase (s : String) : String :=
  match s.data with
  | [] => "."
  | c :: cs =>
    let t := ((c :: cs).reverse.dropWhile (fun x => x = '/')).reverse
    let u := (t.reverse.takeWhile (fun x => ¬(x = '/'))).reverse
    if u = [] then "/" else String.mk u

/-- Go `path.Join`: drop leading empty elements, join the rest with slashes
and clean the result; all-empty input gives the empty string. -/
def goJoin : List String → String
  | [] => ""
  | e :: es =>
    if e = "" then goJoin es
    else goClean (goStringsJoin "/" (e :: es))

/-- Go `error` values the embedded core produces: the named sentinel errors
of `metadata.go`, `ErrSwapTypeMismatch`, an `*ssh.ExitError` (signal, message,
exit status), ad-hoc `errors.New`/`fmt.Errorf` strings, and
`errors.Wrapf`-style wrapping that keeps a base error and adds context. -/
inductive GoErr
  | pathEndsInSlash
  | pathContainsInvalidChars
  | pathContainsDuplicateSlash
  | swapTypeMismatch
  | sshExitError (signal msg : String) (exitStatus : Int)
  | errorString (s : String)
  | wrapped (base : GoErr) (msg : String)
deriving DecidableEq

/-- The root cause of an error, unwrapping `errors.Wrapf` layers
(Go `errors.Cause`). -/
def GoErr.cause : GoErr → GoErr
  | .wrapped base _ => base.cause
  | e => e

/-! ## Layer 3: the core data model -/

/-- Modelled from the spec: the `Caller` provenance marker every mergeable
kind carries "purely for diagnostics" (§4.3); its own structure is not in
the sources at hand, so it is a stack of call-site descriptions. No embedded
operation reads it. -/
structure Caller where
  frames : List String
deriving DecidableEq

/-- Modelled from the spec: the `OnConflict` policy block (§3) with its
declared strategy `do` and the `append` flag for container-like kinds. -/
structure OnConflict where
  doStrategy : String
  append : Bool := false
deriving DecidableEq

/-- Modelled from the spec: the `Status` record carried by build artifacts;
only its content hash is consumed by the embedded code
(`ProvisionedNetwork.Hash`), so it is abstracted to a state string. -/
structure Status where
  state : String
deriving DecidableEq

/-- Modelled from the spec: `Status.Hash` as a content checksum of the
status record (§4.2 hashes every object by formatting semantic fields). -/
def Status.Hash (s : Status) : Nat := Sum64String ("state=" ++ s.state)

/-- Modelled from the spec: the `Team` scope object (§3, glossary). The
embedded code consumes only its path (`Team.Path`, used by
`ProvisionedNetwork.SetID`) and its content hash (used by
`ProvisionedNetwork.Hash`), so its semantic fields are abstracted to one
content string. -/
structure Team where
  id : String
  content : String
deriving DecidableEq

/-- Go `Team.Path`: the team's path identity. -/
def Team.Path (t : Team) : String := t.id

/-- Modelled from the spec: `Team.Hash`, a checksum of the team's semantic
fields (§4.2). -/
def Team.Hash (t : Team) : Nat := Sum64String ("content=" ++ t.content)

/-- The `User` record (maintainer block) of `user.go`: ID, name, uuid and
email. Not hashed by any embedded `Hash`. -/
structure User where
  id : String
  name : String
  uuid : String
  email : String
deriving DecidableEq

/-- Modelled from the spec: the `IO` block of a `Command`; `Command.Hash`
reads its `Stderr`, `Stdin` and `Stdout` strings. -/
structure IORecord where
  stdin : String
  stdout : String
  stderr : String
deriving DecidableEq

/-- Modelled from the spec: the SSH auth record (§6: host, port, user and a
private-key-file reference). -/
structure SSHAuthConfig where
  hostname : String
  port : Int
  user : String
  identityFile : String
deriving DecidableEq

/-- Modelled from the spec: `SSHAuthConfig.Hash`, a checksum over the auth
record's fields, consumed by `Connection.Hash`. -/
def SSHAuthConfig.Hash (a : SSHAuthConfig) : Nat :=
  Sum64String ("host=" ++ a.hostname ++ " port=" ++ goInt a.port ++
    " user=" ++ a.user ++ " keyfile=" ++ a.identityFile)

/-- Modelled from the spec: the WinRM auth record (§6:
username/password/SSL/skip-verify tuple plus host and port). -/
structure WinRMAuthConfig where
  hostname : String
  port : Int
  user : String
  password : String
  https : Bool
  skipVerify : Bool
deriving DecidableEq

/-- Modelled from the spec: `WinRMAuthConfig.Hash`, a checksum over the
auth record's fields, consumed by `Connection.Hash`. -/
def WinRMAuthConfig.Hash (a : WinRMAuthConfig) : Nat :=
  Sum64String ("host=" ++ a.hostname ++ " port=" ++ goInt a.port ++
    " user=" ++ a.user ++ " password=" ++ a.password ++
    " https=" ++ goBool a.https ++ " skipverify=" ++ goBool a.skipVerify)

/-- Modelled from the spec: the `ProvisionedHost` build artifact (§3). The
embedded operations consume only its path (`ProvisioningStep.SetID`,
`Connection.SetID`), so it is abstracted to its ID. -/
structure ProvisionedHost where
  id : String
deriving DecidableEq

/-- Go `ProvisionedHost.Path` / `LaforgeID`: its path identity. -/
def ProvisionedHost.Path (h : ProvisionedHost) : String := h.id

/-- Go `ProvisionedHost.Base`: the basename of its path. -/
def ProvisionedHost.Base (h : ProvisionedHost) : String := goBase h.id

/-- Modelled from the spec: the `Script` provisioner kind (§3). Its own
source is not at hand; the embedded code consumes its basename (via
`Provisioner.Base`) and its hash (via `ProvisioningStep.Hash`), so its
semantic fields are abstracted to a name and a content string. -/
structure Script where
  id : String
  name : String
  content : String
  caller : Caller
deriving DecidableEq

/-- Modelled from the spec: `Script.Hash` over its semantic fields (§4.2). -/
def Script.Hash (s : Script) : Nat :=
  Sum64String ("name=" ++ s.name ++ " content=" ++ s.content)

/-- Modelled from the spec: `HashConfigMap`, the helper `Network.Hash` uses
for its `Vars` map — a checksum of the map rendered as a stable (key-sorted)
string (§4.2 "combining only semantically meaningful fields ... into a
stable formatted string"). -/
def HashConfigMap (m : List (String × String)) : Nat :=
  Sum64String (goStringsJoin " "
    ((sortByKey m).map (fun kv => kv.1 ++ "=" ++ kv.2)))

/-- The `Network` configuration object of `network.go`. -/
structure Network where
  id : String
  name : String
  cidr : String
  vdiVisible : Bool
  vars : List (String × String)
  tags : List (String × String)
  onConflict : Option OnConflict
  caller : Caller
deriving DecidableEq

/-- `Network.Hash` (network.go): xxhash of
`"name=%v cidr=%v vdivisible=%v vars=%v"` over Name, CIDR, VDIVisible and
`HashConfigMap(Vars)`. -/
def Network.Hash (n : Network) : Nat :=
  Sum64String ("name=" ++ n.name ++ " cidr=" ++ n.cidr ++
    " vdivisible=" ++ goBool n.vdiVisible ++
    " vars=" ++ goNat (HashConfigMap n.vars))

/-- `Network.Base` (network.go): `path.Base(n.ID)`. -/
def Network.Base (n : Network) : String := goBase n.id

/-- `Network.Path` (network.go): the ID. -/
def Network.Path (n : Network) : String := n.id

/-- The `DNSRecord` configuration object of `dns_record.go`. -/
structure DNSRecord where
  id : String
  name : String
  values : List String
  recordType : String
  zone : String
  vars : List (String × String)
  tags : List (String × String)
  disabled : Bool
  onConflict : Option OnConflict
  caller : Caller
deriving DecidableEq

/-- `DNSRecord.Hash` (dns_record.go): xxhash of
`"name=%v values=%v type=%v zone=%v vars=%v disabled=%v"`. -/
def DNSRecord.Hash (r : DNSRecord) : Nat :=
  Sum64String ("name=" ++ r.name ++ " values=" ++ goStringSlice r.values ++
    " type=" ++ r.recordType ++ " zone=" ++ r.zone ++
    " vars=" ++ goStringMap r.vars ++ " disabled=" ++ goBool r.disabled)

/-- `DNSRecord.Base` (dns_record.go): `path.Base(r.ID)`. -/
def DNSRecord.Base (r : DNSRecord) : String := goBase r.id

/-- The `Command` configuration object of `command.go`. -/
structure Command where
  id : String
  name : String
  description : String
  program : String
  args : List String
  ignoreErrors : Bool
  cooldown : Int
  ioCfg : Option IORecord
  disabled : Bool
  vars : List (String × String)
  tags : List (String × String)
  onConflict : Option OnConflict
  maintainer : Option User
  caller : Caller
deriving DecidableEq

/-- `Command.Hash` (command.go): xxhash of
`"program=%v args=%v ignoreerrors=%v cooldown=%v io=%v disabled=%v vars=%v"`
with Args comma-joined and the IO block rendered as Stderr+Stdin+Stdout, or
`n/a` when absent. -/
def Command.Hash (c : Command) : Nat :=
  Sum64String ("program=" ++ c.program ++
    " args=" ++ goStringsJoin "," c.args ++
    " ignoreerrors=" ++ goBool c.ignoreErrors ++
    " cooldown=" ++ goInt c.cooldown ++
    " io=" ++ (match c.ioCfg with
               | none => "n/a"
               | some io => io.stderr ++ io.stdin ++ io.stdout) ++
    " disabled=" ++ goBool c.disabled ++
    " vars=" ++ goStringMap c.vars)

/-- `Command.Base` (command.go): `path.Base(c.ID)`. -/
def Command.Base (c : Command) : String := goBase c.id

/-- The local filesystem as the hasher sees it: a map from absolute path to
file bytes, `none` when the file cannot be read. -/
def FileSystem : Type := String → Option (List Nat)

/-- The `RemoteFile` configuration object of `remote_file.go`. -/
structure RemoteFile where
  id : String
  sourceType : String
  source : String
  destination : String
  vars : List (String × String)
  tags : List (String × String)
  template : Bool
  perms : String
  disabled : Bool
  onConflict : Option OnConflict
  md5 : String
  caller : Caller
  absPath : String
  ext : String
deriving DecidableEq

/-- `RemoteFile.ResourceHash` (remote_file.go): read the file at `AbsPath`
and xxhash its bytes; when the read fails, log the error and substitute the
sentinel `666`. -/
def RemoteFile.ResourceHash (fs : FileSystem) (r : RemoteFile) : Nat :=
  match fs r.absPath with
  | none => 666
  | some bytes => xxh64 0 bytes

/-- `RemoteFile.Hash` (remote_file.go): xxhash of
`"sourcetype=%v destination=%v vars=%v template=%v perms=%v disabled=%v source=%v"`
where the last verb receives `ResourceHash()`. -/
def RemoteFile.Hash (fs : FileSystem) (r : RemoteFile) : Nat :=
  Sum64String ("sourcetype=" ++ r.sourceType ++
    " destination=" ++ r.destination ++
    " vars=" ++ goStringMap r.vars ++
    " template=" ++ goBool r.template ++
    " perms=" ++ r.perms ++
    " disabled=" ++ goBool r.disabled ++
    " source=" ++ goNat (RemoteFile.ResourceHash fs r))

/-- `RemoteFile.Base` (remote_file.go): `path.Base(r.ID)`. -/
def RemoteFile.Base (r : RemoteFile) : String := goBase r.id

/-- The `Provisioner` capability: exactly one of Command, DNSRecord,
RemoteFile or Script (§3 "sum type"). -/
inductive Provisioner
  | command (c : Command)
  | dnsRecord (r : DNSRecord)
  | remoteFile (r : RemoteFile)
  | script (s : Script)
deriving DecidableEq

/-- Dispatch of `Provisioner.Hash` to the concrete kind's `Hash`. -/
def Provisioner.Hash (fs : FileSystem) : Provisioner → Nat
  | .command c => c.Hash
  | .dnsRecord r => r.Hash
  | .remoteFile r => r.Hash fs
  | .script s => s.Hash

/-- Dispatch of `Provisioner.Base` to the concrete kind's `Base`
(`path.Base` of its ID). -/
def Provisioner.Base : Provisioner → String
  | .command c => c.Base
  | .dnsRecord r => r.Base
  | .remoteFile r => r.Base
  | .script s => goBase s.id

/-- The `ProvisioningStep` build artifact of `provisioning_step.go`. The
always-dereferenced back-references (`ProvisionedHost`, `Provisioner`) are
plain values; the provisioner alias caches filled by `SetID` are options.
Back-references the embedded operations never read (Host, Network, Team,
Build, Environment, Competition) are omitted. -/
structure ProvisioningStep where
  id : String
  provisionerID : String
  provisionerType : String
  stepNumber : Int
  status : String
  provisionedHost : ProvisionedHost
  provisioner : Provisioner
  command : Option Command
  dnsRecord : Option DNSRecord
  remoteFile : Option RemoteFile
  script : Option Script
  onConflict : Option OnConflict
  caller : Caller
  dir : String
deriving DecidableEq

/-- `ProvisioningStep.Hash` (provisioning_step.go): xxhash of
`"pid=%v ptype=%v phash=%v snum=%v"` over ProvisionerID, ProvisionerType,
the provisioner's hash and StepNumber. -/
def ProvisioningStep.Hash (fs : FileSystem) (p : ProvisioningStep) : Nat :=
  Sum64String ("pid=" ++ p.provisionerID ++ " ptype=" ++ p.provisionerType ++
    " phash=" ++ goNat (p.provisioner.Hash fs) ++
    " snum=" ++ goInt p.stepNumber)

/-- `ProvisioningStep.ParentLaforgeID` (provisioning_step.go):
`path.Dir(path.Dir(p.LaforgeID()))`. -/
def ProvisioningStep.ParentLaforgeID (p : ProvisioningStep) : String :=
  goDir (goDir p.id)

/-- The switch at the end of `ProvisioningStep.SetID` that copies the
`Provisioner` interface value into the matching concrete alias field. -/
def ProvisioningStep.setProvisionerAlias (p : ProvisioningStep) : ProvisioningStep :=
  match p.provisioner with
  | .command v => { p with command := some v }
  | .dnsRecord v => { p with dnsRecord := some v }
  | .remoteFile v => { p with remoteFile := some v }
  | .script v => { p with script := some v }

/-- `ProvisioningStep.SetID` (provisioning_step.go): when ID is empty,
synthesize `path.Join(host.Path(), "steps", "{stepNumber}-{provisionerBase}")`;
then (always) run the provisioner-alias switch; return the ID. The pair is
(returned path, updated receiver). -/
def ProvisioningStep.SetID (p : ProvisioningStep) : String × ProvisioningStep :=
  if p.id = "" then
    let nid := goJoin [p.provisionedHost.Path, "steps",
      goInt p.stepNumber ++ "-" ++ p.provisioner.Base]
    (nid, ProvisioningStep.setProvisionerAlias { p with id := nid })
  else (p.id, ProvisioningStep.setProvisionerAlias p)

/-- The `ProvisionedNetwork` build artifact of `provisioned_network.go`.
The always-dereferenced back-references (`Network`, `Team`, `Status`) are
plain values; back-references the embedded operations never read (Build,
Environment, Competition) are omitted. -/
structure ProvisionedNetwork where
  id : String
  name : String
  cidr : String
  networkID : String
  provisionedHosts : List (String × ProvisionedHost)
  status : Status
  network : Network
  team : Team
  onConflict : Option OnConflict
  caller : Caller
  dir : String
deriving DecidableEq

/-- `ProvisionedNetwork.Hash` (provisioned_network.go): xxhash of
`"name=%v cidr=%v net=%v team=%v status=%v"` over Name, CIDR and the hashes
of the Network, Team and Status back-references. -/
def ProvisionedNetwork.Hash (p : ProvisionedNetwork) : Nat :=
  Sum64String ("name=" ++ p.name ++ " cidr=" ++ p.cidr ++
    " net=" ++ goNat p.network.Hash ++
    " team=" ++ goNat p.team.Hash ++
    " status=" ++ goNat p.status.Hash)

/-- `ProvisionedNetwork.ParentLaforgeID` (provisioned_network.go):
`path.Dir(path.Dir(p.LaforgeID()))`. -/
def ProvisionedNetwork.ParentLaforgeID (p : ProvisionedNetwork) : String :=
  goDir (goDir p.id)

/-- `ProvisionedNetwork.SetID` (provisioned_network.go): when ID is empty,
synthesize `path.Join(team.Path(), "networks", network.Base())`; when
NetworkID is empty, fill it with `network.Path()`; return the ID. The pair
is (returned path, updated receiver). -/
def ProvisionedNetwork.SetID (p : ProvisionedNetwork) : String × ProvisionedNetwork :=
  if p.id = "" then
    let nid := goJoin [p.team.Path, "networks", p.network.Base]
    if p.networkID = "" then
      (nid, { p with id := nid, networkID := p.network.Path })
    else (nid, { p with id := nid })
  else
    if p.networkID = "" then (p.id, { p with networkID := p.network.Path })
    else (p.id, p)

/-- The `Connection` transport descriptor of `connection.go`. The nilable
auth configs stay options (`IsSSH`/`IsWinRM` test them); the
`ProvisionedHost` back-reference is a plain value (`SetID` dereferences it
unconditionally when the ID is empty); back-references the embedded
operations never read are omitted. -/
structure Connection where
  id : String
  active : Bool
  localAddr : String
  remoteAddr : String
  resourceName : String
  sshAuthConfig : Option SSHAuthConfig
  winRMAuthConfig : Option WinRMAuthConfig
  revision : Int
  onConflict : Option OnConflict
  provisionedHost : ProvisionedHost
  caller : Caller
deriving DecidableEq

/-- `Connection.IsSSH` (connection.go): the SSH auth config is non-nil. -/
def Connection.IsSSH (c : Connection) : Bool := c.sshAuthConfig.isSome

/-- `Connection.IsWinRM` (connection.go): the WinRM auth config is non-nil. -/
def Connection.IsWinRM (c : Connection) : Bool := c.winRMAuthConfig.isSome

/-- `Connection.Hash` (connection.go): xxhash of
`"id=%v localaddr=%v rmaddr=%v rname=%v sshc=%v wrmc=%v"`; the auth-config
hashes default to 666 and are overwritten from whichever config is present.
Note the Go code feeds `c.ID` into the checksum. -/
def Connection.Hash (c : Connection) : Nat :=
  Sum64String ("id=" ++ c.id ++ " localaddr=" ++ c.localAddr ++
    " rmaddr=" ++ c.remoteAddr ++ " rname=" ++ c.resourceName ++
    " sshc=" ++ goNat (match c.sshAuthConfig with
                       | some a => a.Hash
                       | none => 666) ++
    " wrmc=" ++ goNat (match c.winRMAuthConfig with
                       | some a => a.Hash
                       | none => 666))

/-- `Connection.ParentLaforgeID` (connection.go): `path.Dir(c.Path())`. -/
def Connection.ParentLaforgeID (c : Connection) : String := goDir c.id

/-- `Connection.SetID` (connection.go): when ID is empty, synthesize
`path.Join(provisionedHost.LaforgeID(), "conn")`; return the ID. The pair
is (returned path, updated receiver). -/
def Connection.SetID (c : Connection) : String × Connection :=
  if c.id = "" then
    let nid := goJoin [c.provisionedHost.Path, "conn"]
    (nid, { c with id := nid })
  else (c.id, c)

/-- `LFType` (metadata.go): the classification of laforge objects. -/
inductive LFType
  | competition
  | network
  | host
  | remoteFile
  | command
  | dnsRecord
  | script
  | environment
  | build
  | team
  | provisionedNetwork
  | provisionedHost
  | connection
  | provisioningStep
  | unknown
deriving DecidableEq

/-- The serialized Go string constant of each `LFType`. -/
def LFType.toGoString : LFType → String
  | .competition => "competition"
  | .network => "network"
  | .host => "host"
  | .remoteFile => "remote_file"
  | .command => "command"
  | .dnsRecord => "dns_record"
  | .script => "script"
  | .environment => "environment"
  | .build => "build"
  | .team => "team"
  | .provisionedNetwork => "provisioned_network"
  | .provisionedHost => "provisioned_host"
  | .connection => "connection"
  | .provisioningStep => "provisioning_step"
  | .unknown => "unknown"

/-- `TypeByPath` (metadata.go): classify an object by its ID schema — a
non-absolute path is a Competition; then the fixed prefix table on the
first path element; then the positional checks against `envs`, `teams`,
`networks`, `hosts`, `conn` and `steps`, in source order. -/
def TypeByPath (p : String) : LFType :=
  if goIsAbs p then
    let top := String.mk ((splitSlash p.data).getD 1 [])
    if top = "scripts" then .script
    else if top = "networks" then .network
    else if top = "hosts" then .host
    else if top = "commands" then .command
    else if top = "dns-records" then .dnsRecord
    else if top = "files" then .remoteFile
    else if goBase (goDir p) = "envs" then .environment
    else if goBase (goDir (goDir p)) = "envs" then .build
    else if goBase (goDir p) = "teams" then .team
    else if goBase (goDir p) = "networks" ∧ top = "envs" then .provisionedNetwork
    else if goBase (goDir p) = "hosts" ∧ top = "envs" then .provisionedHost
    else if goBase p = "conn" ∧ goBase (goDir (goDir p)) = "hosts" then .connection
    else if goBase (goDir p) = "steps" ∧ top = "envs" then .provisioningStep
    else .unknown
  else .competition

/-- `IsGlobalType` (metadata.go): the switch mapping each classified kind
to whether it is global (cross-environment reusable). -/
def IsGlobalType (p : String) : Bool :=
  match TypeByPath p with
  | .competition => true
  | .command => true
  | .network => true
  | .host => true
  | .dnsRecord => true
  | .remoteFile => true
  | .script => true
  | _ => false

/-- The character class `[a-z0-9\-\/]` of `genericPathRegexp`
(metadata.go), expressed over the character's code point. -/
def isPathClassChar (c : Char) : Bool :=
  (97 ≤ c.toNat && c.toNat ≤ 122) || (48 ≤ c.toNat && c.toNat ≤ 57) ||
    c.toNat = 45 || c.toNat = 47

/-- The final character class `[a-z0-9]` of `genericPathRegexp`. -/
def isLowerAlnumChar (c : Char) : Bool :=
  (97 ≤ c.toNat && c.toNat ≤ 122) || (48 ≤ c.toNat && c.toNat ≤ 57)

/-- An ASCII uppercase letter, the "uppercase characters" the path syntax
disallows. -/
def isUpperChar (c : Char) : Bool := 65 ≤ c.toNat && c.toNat ≤ 90

/-- Full match of the path's characters against `genericPathRegexp`, i.e.
`^\/[a-z0-9\-\/]{3,}[a-z0-9]$` (metadata.go): a leading slash, at least
three class characters, and a final lowercase alphanumeric. -/
def matchesGenericChars : List Char → Bool
  | [] => false
  | c :: rest =>
    c.toNat = 47 && decide (4 ≤ rest.length) &&
      rest.dropLast.all isPathClassChar &&
      (rest.getLast?.map isLowerAlnumChar).getD false

/-- Full match against `genericPathRegexp` (metadata.go). -/
def matchesGenericPath (s : String) : Bool := matchesGenericChars s.data

/-- Match against `consecutiveSlashRegexp`, i.e. `\/\/` (metadata.go): the
path contains two consecutive slashes. -/
def hasDoubleSlash : List Char → Bool
  | c1 :: c2 :: rest => (c1 = '/' && c2 = '/') || hasDoubleSlash (c2 :: rest)
  | _ => false

/-- `ValidateGenericPath` (metadata.go): reject with
`ErrPathContainsInvalidChars` when the generic regexp does not match, then
with `ErrPathContainsDuplicateSlash` when the path contains `//`;
otherwise ok (`none`). -/
def ValidateGenericPath (p : String) : Option GoErr :=
  if matchesGenericPath p = false then some .pathContainsInvalidChars
  else if hasDoubleSlash p.data then some .pathContainsDuplicateSlash
  else none

/-- The `Mergeable` capability as the closed sum of the embedded concrete
kinds a `Swap` call can receive. -/
inductive Mergeable
  | network (n : Network)
  | dnsRecord (r : DNSRecord)
  | command (c : Command)
  | remoteFile (r : RemoteFile)
  | provisionedNetwork (p : ProvisionedNetwork)
  | provisioningStep (p : ProvisioningStep)
  | connection (c : Connection)
  | script (s : Script)
deriving DecidableEq

/-- The Go `%T` rendering of the concrete type behind a `Mergeable`. -/
def Mergeable.goType : Mergeable → String
  | .network _ => "*core.Network"
  | .dnsRecord _ => "*core.DNSRecord"
  | .command _ => "*core.Command"
  | .remoteFile _ => "*core.RemoteFile"
  | .provisionedNetwork _ => "*core.ProvisionedNetwork"
  | .provisioningStep _ => "*core.ProvisioningStep"
  | .connection _ => "*core.Connection"
  | .script _ => "*core.Script"

/-- `Network.Swap` (network.go): type-assert the argument to `*Network`;
on mismatch return `errors.Wrapf(ErrSwapTypeMismatch, "expected %T, got %T")`
without mutating; on match replace the whole receiver value. -/
def Network.Swap (n : Network) (m : Mergeable) : Except GoErr Network :=
  match m with
  | .network v => .ok v
  | _ => .error (.wrapped .swapTypeMismatch
      ("expected *core.Network, got " ++ m.goType))

/-- `DNSRecord.Swap` (dns_record.go): same pattern as `Network.Swap`. -/
def DNSRecord.Swap (r : DNSRecord) (m : Mergeable) : Except GoErr DNSRecord :=
  match m with
  | .dnsRecord v => .ok v
  | _ => .error (.wrapped .swapTypeMismatch
      ("expected *core.DNSRecord, got " ++ m.goType))

/-- `Command.Swap` (command.go): same pattern as `Network.Swap`. -/
def Command.Swap (c : Command) (m : Mergeable) : Except GoErr Command :=
  match m with
  | .command v => .ok v
  | _ => .error (.wrapped .swapTypeMismatch
      ("expected *core.Command, got " ++ m.goType))

/-- `RemoteFile.Swap` (remote_file.go): same pattern as `Network.Swap`. -/
def RemoteFile.Swap (r : RemoteFile) (m : Mergeable) : Except GoErr RemoteFile :=
  match m with
  | .remoteFile v => .ok v
  | _ => .error (.wrapped .swapTypeMismatch
      ("expected *core.RemoteFile, got " ++ m.goType))

/-- `ProvisionedNetwork.Swap` (provisioned_network.go): same pattern as
`Network.Swap`. -/
def ProvisionedNetwork.Swap (p : ProvisionedNetwork) (m : Mergeable) :
    Except GoErr ProvisionedNetwork :=
  match m with
  | .provisionedNetwork v => .ok v
  | _ => .error (.wrapped .swapTypeMismatch
      ("expected *core.ProvisionedNetwork, got " ++ m.goType))

/-- `ProvisioningStep.Swap` (provisioning_step.go): same pattern as
`Network.Swap`. -/
def ProvisioningStep.Swap (p : ProvisioningStep) (m : Mergeable) :
    Except GoErr ProvisioningStep :=
  match m with
  | .provisioningStep v => .ok v
  | _ => .error (.wrapped .swapTypeMismatch
      ("expected *core.ProvisioningStep, got " ++ m.goType))

/-- `Connection.Swap` (connection.go): same pattern as `Network.Swap`. -/
def Connection.Swap (c : Connection) (m : Mergeable) : Except GoErr Connection :=
  match m with
  | .connection v => .ok v
  | _ => .error (.wrapped .swapTypeMismatch
      ("expected *core.Connection, got " ++ m.goType))

/-- Outcome of a call that may abort the process instead of returning:
a normal return, a Go `panic`, or a `log.Fatal`-style exit. -/
inductive ProcResult (α : Type)
  | ret (v : α)
  | panicked (msg : String)
  | fatalExit (e : GoErr)
deriving DecidableEq

/-- The `Metadata` wrapper of `metadata.go`. The wrapped `Dependency` is
external state, so the operations below receive it as an explicit argument:
`none` models a nil `Dependency` pointer and `some d` a live object whose
current `Hash()` is `d`. Timestamps and resources are omitted (no embedded
operation reads them). -/
structure Metadata where
  id : String
  objectType : LFType
  created : Bool
  tainted : Bool
  addition : Bool
  checksum : Nat
deriving DecidableEq

/-- `Metadata.CalculateChecksum` (metadata.go): assign the checksum field
from the wrapped dependency's `Hash()` (a nil dependency panics on
dereference). -/
def Metadata.CalculateChecksum (dep : Option Nat) (m : Metadata) :
    ProcResult Metadata :=
  match dep with
  | none => .panicked "runtime error: invalid memory address or nil pointer dereference"
  | some d => .ret { m with checksum := d }

/-- `Metadata.Hash` (metadata.go): when the stored checksum is zero, run
`CalculateChecksum`; return the stored checksum. The result triple is
(returned checksum, updated metadata, whether the wrapped dependency's
`Hash()` was invoked). -/
def Metadata.Hash (dep : Option Nat) (m : Metadata) :
    ProcResult (Nat × Metadata × Bool) :=
  if m.checksum = 0 then
    match Metadata.CalculateChecksum dep m with
    | .ret m1 => .ret (m1.checksum, m1, true)
    | .panicked msg => .panicked msg
    | .fatalExit e => .fatalExit e
  else .ret (m.checksum, m, false)

/-- `Metadata.Label` (metadata.go): panic outright when the wrapped
`Dependency` is nil; otherwise render the graph-node HTML label from ID,
object type and checksum. -/
def Metadata.Label (dep : Option Nat) (m : Metadata) : ProcResult String :=
  match dep with
  | none => .panicked ("could not find dependency for " ++ m.id)
  | some _ => .ret
      ("<table border=\"0\" cellborder=\"0\" cellspacing=\"1\">" ++
       "<tr><td align=\"center\"><b>" ++ m.id ++ "</b></td></tr>" ++
       "<tr><td align=\"left\"><font face=\"Courier\" point-size=\"11\">type     = " ++
       m.objectType.toGoString ++ "</font></td></tr>" ++
       "<tr><td align=\"left\"><font face=\"Courier\" point-size=\"11\">checksum = " ++
       goHex m.checksum ++ "</font></td></tr></table>")

/-- Control-flow skeleton of `RemoteFile.MD5Sum` (remote_file.go): an
`os.Open` error is returned as a value, but an `io.Copy` error is passed to
`log.Fatal`, which aborts the process. The digest of a successful read is
irrelevant to the flow and is received as a parameter. -/
def RemoteFile.md5SumFlow (openErr : Option GoErr) (copyErr : Option GoErr)
    (digest : String) : ProcResult (String × Option GoErr) :=
  match openErr with
  | some e => .ret ("", some e)
  | none =>
    match copyErr with
    | some e => .fatalExit e
    | none => .ret (digest, none)

/-- The three remote steps of the upload-execute-delete workflow. -/
inductive WorkflowStep
  | upload
  | execute
  | delete
deriving DecidableEq

/-- Outcomes of the three SSH transport calls of one
`UploadExecuteAndDelete` invocation: `none` is success, `some e` the error
the step reports. -/
structure SSHStepResults where
  uploadErr : Option GoErr
  execErr : Option GoErr
  deleteErr : Option GoErr
deriving DecidableEq

/-- Modelled from the spec: `PerformInTimeout` and `NewTimeoutExtension`
are not in the sources at hand. Per §4.5 a step error is re-signaled
through the timeout wrapper and propagates to the caller, where the SFTP
upload tolerance check inspects the underlying transport error; so the
wrapper is modelled as delivering the step's error unchanged (a timed-out
step would surface a timeout error the same way). -/
def PerformInTimeout (stepErr : Option GoErr) : Option GoErr := stepErr

/-- The tolerance test of the SSH branch of `UploadExecuteAndDelete`
(connection.go, after the upload step): the error must be an
`*ssh.ExitError` whose `Signal()` and `Msg()` are empty and whose
`ExitStatus()` is exactly 1; any other error aborts. -/
def isBenignSFTPExit : GoErr → Bool
  | .sshExitError signal msg exitStatus => signal = "" && msg = "" && exitStatus = 1
  | _ => false

/-- Continuation of the SSH branch of `UploadExecuteAndDelete`
(connection.go) after the upload step's error handling: the nil checks on
the provisioned host, the execute step, then the delete step. The first
component lists the remote steps attempted. -/
def sshAfterUpload (phPresent phHostPresent : Bool) (st : SSHStepResults) :
    List WorkflowStep × Option GoErr :=
  if phPresent = false then
    ([.upload], some (.errorString "provisioned host was nil"))
  else if phHostPresent = false then
    ([.upload], some (.errorString "provisioned host's host was nil"))
  else
    match PerformInTimeout st.execErr with
    | some e => ([.upload, .execute], some e)
    | none =>
      match PerformInTimeout st.deleteErr with
      | some e => ([.upload, .execute, .delete], some e)
      | none => ([.upload, .execute, .delete], none)

/-- The SSH/SFTP branch of `Connection.UploadExecuteAndDelete`
(connection.go): the two fail-fast local stats, the SFTP upload with its
benign-exit tolerance, then `sshAfterUpload`. The first component lists the
remote steps attempted. -/
def UploadExecuteAndDeleteSSH (scriptExists logdirExists phPresent phHostPresent : Bool)
    (st : SSHStepResults) : List WorkflowStep × Option GoErr :=
  if scriptExists = false then
    ([], some (.errorString "problem locating file"))
  else if logdirExists = false then
    ([], some (.errorString "problem locating logdir"))
  else
    match PerformInTimeout st.uploadErr with
    | some e =>
      if isBenignSFTPExit e then sshAfterUpload phPresent phHostPresent st
      else ([.upload], some e)
    | none => sshAfterUpload phPresent phHostPresent st

/-! ## Fixtures for counterexamples and witnesses -/

/-- A concrete Connection with neither auth config, used for the claim-C1
counterexample. -/
def c1ConnA : Connection :=
  { id := "/x", active := false, localAddr := "", remoteAddr := "",
    resourceName := "", sshAuthConfig := none, winRMAuthConfig := none,
    revision := 0, onConflict := none, provisionedHost := { id := "" },
    caller := { frames := [] } }

/-- The claim-C1 counterexample partner: identical to `c1ConnA` except for
its ID. -/
def c1ConnB : Connection := { c1ConnA with id := "/y" }

/-- A concrete Network for the claim-C2 witness. -/
def c2NetA : Network :=
  { id := "/networks/dmz", name := "dmz", cidr := "10.0.0.0/24",
    vdiVisible := false, vars := [], tags := [], onConflict := none,
    caller := { frames := [] } }

/-- A second concrete Network for the claim-C2 witness. -/
def c2NetB : Network :=
  { id := "/networks/corp", name := "corp", cidr := "10.0.1.0/24",
    vdiVisible := true, vars := [("a", "1")], tags := [],
    onConflict := some { doStrategy := "overwrite", append := false },
    caller := { frames := ["env.laforge"] } }

/-- A concrete DNSRecord for the claim-C2 witness. -/
def c2Dns : DNSRecord :=
  { id := "/dns-records/www", name := "www", values := ["10.0.0.5"],
    recordType := "A", zone := "example.com", vars := [], tags := [],
    disabled := false, onConflict := none, caller := { frames := [] } }

/-- A concrete Metadata with an unset (zero) checksum for the claim-C3
witness. -/
def c3Meta : Metadata :=
  { id := "/networks/dmz", objectType := .network, created := false,
    tainted := false, addition := false, checksum := 0 }

/-- A concrete RemoteFile whose asset path is unreadable under the empty
filesystem, for the claim-C7 witness. -/
def c7FileA : RemoteFile :=
  { id := "/files/payload", sourceType := "local", source := "./payload.bin",
    destination := "/opt/payload.bin", vars := [], tags := [],
    template := false, perms := "0644", disabled := false, onConflict := none,
    md5 := "", caller := { frames := [] }, absPath := "/cfg/payload.bin",
    ext := ".bin" }

/-- A second RemoteFile, equal to `c7FileA` on all hashed fields but backed
by a different (also unreadable) asset, for the claim-C7 witness. -/
def c7FileB : RemoteFile :=
  { c7FileA with
    id := "/files/other",
    source := "./other.bin",
    absPath := "/cfg/other.bin" }

/-- A filesystem on which no path is readable, for the claim-C7 witness. -/
def c7NoFS : FileSystem := fun _ => none

/-- Concrete step results for the claim-C8 witness: the SFTP upload fails
with the benign exit class, the other steps succeed. -/
def c8Steps : SSHStepResults :=
  { uploadErr := some (.sshExitError "" "" 1), execErr := none,
    deleteErr := none }

/-- A concrete Metadata with a nil dependency context for the claim-C9
witness. -/
def c9Meta : Metadata :=
  { id := "/networks/dmz", objectType := .network, created := false,
    tainted := false, addition := false, checksum := 7 }

/-- A concrete Script provisioner for the claim-C4 step fixture. -/
def c4Script : Script :=
  { id := "/scripts/s1", name := "s1", content := "", caller := { frames := [] } }

/-- A ProvisioningStep before ID assignment, owned by a canonical
provisioned host, for claim C4. -/
def c4Step0 : ProvisioningStep :=
  { id := "", provisionerID := "/scripts/s1", provisionerType := "script",
    stepNumber := 0, status := "",
    provisionedHost := { id := "/envs/e1/b1/teams/t1/networks/n1/hosts/h1" },
    provisioner := .script c4Script, command := none, dnsRecord := none,
    remoteFile := none, script := none, onConflict := none,
    caller := { frames := [] }, dir := "" }

/-- The claim-C4 step with its canonical path, as `SetID` synthesizes it. -/
def c4Step : ProvisioningStep := (ProvisioningStep.SetID c4Step0).2

/-- A concrete Network for the claim-C4 provisioned-network fixture. -/
def c4Net : Network :=
  { id := "/networks/n1", name := "n1", cidr := "10.0.0.0/24",
    vdiVisible := false, vars := [], tags := [], onConflict := none,
    caller := { frames := [] } }

/-- A ProvisionedNetwork with the canonical path shape for claim C4. -/
def c4PN : ProvisionedNetwork :=
  { id := "/envs/e1/b1/teams/t1/networks/n1", name := "n1",
    cidr := "10.0.0.0/24", networkID := "/networks/n1",
    provisionedHosts := [], status := { state := "" }, network := c4Net,
    team := { id := "/envs/e1/b1/teams/t1", content := "" },
    onConflict := none, caller := { frames := [] }, dir := "" }

/-- A concrete Network for the claim-C5 fixture. -/
def c5Net : Network :=
  { id := "/networks/n1", name := "n1", cidr := "10.0.0.0/24",
    vdiVisible := false, vars := [], tags := [], onConflict := none,
    caller := { frames := [] } }

/-- The claim-C5 counterexample: a ProvisionedNetwork whose ID is already
set but whose NetworkID is still empty, so `SetID` mutates it. -/
def c5PN : ProvisionedNetwork :=
  { id := "/envs/e1/b1/teams/t1/networks/n1", name := "n1",
    cidr := "10.0.0.0/24", networkID := "", provisionedHosts := [],
    status := { state := "" }, network := c5Net,
    team := { id := "/envs/e1/b1/teams/t1", content := "" },
    onConflict := none, caller := { frames := [] }, dir := "" }

/-- A concrete Script provisioner for the claim-C5 step fixture. -/
def c5Script : Script :=
  { id := "/scripts/s1", name := "s1", content := "", caller := { frames := [] } }

/-- A ProvisioningStep with an already-set ID for the claim-C5 witness. -/
def c5Step : ProvisioningStep :=
  { id := "/envs/e1/b1/teams/t1/networks/n1/hosts/h1/steps/0-s1",
    provisionerID := "/scripts/s1", provisionerType := "script",
    stepNumber := 0, status := "",
    provisionedHost := { id := "/envs/e1/b1/teams/t1/networks/n1/hosts/h1" },
    provisioner := .script c5Script,
    command := none, dnsRecord := none, remoteFile := none, script := none,
    onConflict := none, caller := { frames := [] }, dir := "" }

/-- A Connection with an already-set ID for the claim-C5 witness. -/
def c5Conn : Connection :=
  { id := "/envs/e1/b1/teams/t1/networks/n1/hosts/h1/conn", active := true,
    localAddr := "", remoteAddr := "10.0.0.5", resourceName := "",
    sshAuthConfig := none, winRMAuthConfig := none, revision := 0,
    onConflict := none,
    provisionedHost := { id := "/envs/e1/b1/teams/t1/networks/n1/hosts/h1" },
    caller := { frames := [] } }

/-! ## Claim theorems -/

/-- Claim C1 (amended): for Network, DNSRecord, Command, RemoteFile,
ProvisioningStep and ProvisionedNetwork, `Hash()` is invariant under
changing only the ID and Caller fields; `Connection.Hash` is invariant
under changing only Caller, but feeds the ID into the checksum (see the
counterexample). -/
theorem c1_hash_excludes_identity_amended :
    (∀ (n : Network) (i : String) (ca : Caller),
      Network.Hash { n with id := i, caller := ca } = Network.Hash n) ∧
    (∀ (r : DNSRecord) (i : String) (ca : Caller),
      DNSRecord.Hash { r with id := i, caller := ca } = DNSRecord.Hash r) ∧
    (∀ (c : Command) (i : String) (ca : Caller),
      Command.Hash { c with id := i, caller := ca } = Command.Hash c) ∧
    (∀ (fs : FileSystem) (r : RemoteFile) (i : String) (ca : Caller),
      RemoteFile.Hash fs { r with id := i, caller := ca } = RemoteFile.Hash fs r) ∧
    (∀ (fs : FileSystem) (p : ProvisioningStep) (i : String) (ca : Caller),
      ProvisioningStep.Hash fs { p with id := i, caller := ca } =
        ProvisioningStep.Hash fs p) ∧
    (∀ (p : ProvisionedNetwork) (i : String) (ca : Caller),
      ProvisionedNetwork.Hash { p with id := i, caller := ca } =
        ProvisionedNetwork.Hash p) ∧
    (∀ (c : Connection) (ca : Caller),
      Connection.Hash { c with caller := ca } = Connection.Hash c) :=
  ⟨fun _ _ _ => rfl, fun _ _ _ => rfl, fun _ _ _ => rfl, fun _ _ _ _ => rfl,
   fun _ _ _ _ => rfl, fun _ _ _ => rfl, fun _ _ => rfl⟩

/-- Claim C1 counterexample: two Connections that differ only in their ID
produce different checksums, because `Connection.Hash` formats `id=%v` into
the hashed string (src/unnamed/part_001, line 62). -/
theorem c1_connection_hash_id_counterexample :
    c1ConnB = { c1ConnA with id := "/y" } ∧
    Connection.Hash c1ConnA ≠ Connection.Hash c1ConnB := by
  exact ⟨rfl, by decide⟩

/-- Claim C2: for every embedded mergeable kind, `Swap` with a same-kind
argument succeeds and replaces the receiver's whole value with the
argument, and `Swap` with any other concrete kind returns an error wrapping
`ErrSwapTypeMismatch` (and, the model being functional, produces no
replacement value, so neither operand is mutated). -/
theorem c2_swap_semantics :
    (∀ (x v : Network), Network.Swap x (.network v) = .ok v) ∧
    (∀ (x : Network) (m : Mergeable), m.goType ≠ "*core.Network" →
      Network.Swap x m = .error (.wrapped .swapTypeMismatch
        ("expected *core.Network, got " ++ m.goType))) ∧
    (∀ (x v : DNSRecord), DNSRecord.Swap x (.dnsRecord v) = .ok v) ∧
    (∀ (x : DNSRecord) (m : Mergeable), m.goType ≠ "*core.DNSRecord" →
      DNSRecord.Swap x m = .error (.wrapped .swapTypeMismatch
        ("expected *core.DNSRecord, got " ++ m.goType))) ∧
    (∀ (x v : Command), Command.Swap x (.command v) = .ok v) ∧
    (∀ (x : Command) (m : Mergeable), m.goType ≠ "*core.Command" →
      Command.Swap x m = .error (.wrapped .swapTypeMismatch
        ("expected *core.Command, got " ++ m.goType))) ∧
    (∀ (x v : RemoteFile), RemoteFile.Swap x (.remoteFile v) = .ok v) ∧
    (∀ (x : RemoteFile) (m : Mergeable), m.goType ≠ "*core.RemoteFile" →
      RemoteFile.Swap x m = .error (.wrapped .swapTypeMismatch
        ("expected *core.RemoteFile, got " ++ m.goType))) ∧
    (∀ (x v : ProvisionedNetwork),
      ProvisionedNetwork.Swap x (.provisionedNetwork v) = .ok v) ∧
    (∀ (x : ProvisionedNetwork) (m : Mergeable),
      m.goType ≠ "*core.ProvisionedNetwork" →
      ProvisionedNetwork.Swap x m = .error (.wrapped .swapTypeMismatch
        ("expected *core.ProvisionedNetwork, got " ++ m.goType))) ∧
    (∀ (x v : ProvisioningStep),
      ProvisioningStep.Swap x (.provisioningStep v) = .ok v) ∧
    (∀ (x : ProvisioningStep) (m : Mergeable),
      m.goType ≠ "*core.ProvisioningStep" →
      ProvisioningStep.Swap x m = .error (.wrapped .swapTypeMismatch
        ("expected *core.ProvisioningStep, got " ++ m.goType))) ∧
    (∀ (x v : Connection), Connection.Swap x (.connection v) = .ok v) ∧
    (∀ (x : Connection) (m : Mergeable), m.goType ≠ "*core.Connection" →
      Connection.Swap x m = .error (.wrapped .swapTypeMismatch
        ("expected *core.Connection, got " ++ m.goType))) := by
  refine ⟨fun _ _ => rfl, ?_, fun _ _ => rfl, ?_, fun _ _ => rfl, ?_,
    fun _ _ => rfl, ?_, fun _ _ => rfl, ?_, fun _ _ => rfl, ?_,
    fun _ _ => rfl, ?_⟩ <;>
  · intro x m h
    cases m <;> first
      | rfl
      | exact absurd rfl h

/-- Claim C2 witness: a same-kind swap succeeds with the argument's value,
and a cross-kind swap reports the type mismatch. -/
theorem c2_swap_semantics_witness :
    Network.Swap c2NetA (.network c2NetB) = .ok c2NetB ∧
    Network.Swap c2NetA (.dnsRecord c2Dns) = .error (.wrapped .swapTypeMismatch
      ("expected *core.Network, got " ++ (Mergeable.dnsRecord c2Dns).goType)) :=
  ⟨c2_swap_semantics.1 c2NetA c2NetB,
   c2_swap_semantics.2.1 c2NetA (.dnsRecord c2Dns) (by decide)⟩

/-- Claim C3: once `CalculateChecksum` has stored a non-zero checksum,
every later `Hash()` returns the stored value without invoking the wrapped
dependency's `Hash()` — whatever the dependency's content hash has become —
and `Hash()` forwards to the dependency exactly when the stored checksum is
zero. -/
theorem c3_checksum_memoization :
    (∀ (d0 : Nat) (m m1 : Metadata),
      Metadata.CalculateChecksum (some d0) m = .ret m1 → m1.checksum ≠ 0 →
      ∀ (d' : Option Nat), Metadata.Hash d' m1 = .ret (m1.checksum, m1, false)) ∧
    (∀ (d : Nat) (m : Metadata), m.checksum = 0 →
      Metadata.Hash (some d) m = .ret (d, { m with checksum := d }, true)) ∧
    (∀ (dep : Option Nat) (m : Metadata), m.checksum ≠ 0 →
      Metadata.Hash dep m = .ret (m.checksum, m, false)) := by
  refine ⟨?_, ?_, ?_⟩
  · intro d0 m m1 hcalc hne d'
    simp only [Metadata.CalculateChecksum, ProcResult.ret.injEq] at hcalc
    subst hcalc
    simp [Metadata.Hash, hne]
  · intro d m h
    simp [Metadata.Hash, Metadata.CalculateChecksum, h]
  · intro dep m h
    simp [Metadata.Hash, h]

/-- Claim C3 witness: computing the checksum `42` and then calling `Hash`
with a changed dependency content (`99`, or even a nil dependency) returns
the memoized `42` without recomputation; on a zero checksum `Hash`
forwards to the dependency. -/
theorem c3_checksum_memoization_witness :
    Metadata.Hash (some 99) { c3Meta with checksum := 42 } =
      .ret (42, { c3Meta with checksum := 42 }, false) ∧
    Metadata.Hash (some 42) c3Meta =
      .ret (42, { c3Meta with checksum := 42 }, true) :=
  ⟨c3_checksum_memoization.1 42 c3Meta { c3Meta with checksum := 42 }
      rfl (by decide) (some 99),
   c3_checksum_memoization.2.1 42 c3Meta rfl⟩

/-- Claim C7: an unreadable asset makes `ResourceHash` return the fixed
non-zero sentinel 666 — the same for every unreadable file — and the
enclosing `Hash` still returns a checksum, so two RemoteFiles with
different unreadable assets but equal hashed fields hash identically. -/
theorem c7_resource_hash_sentinel :
    (∀ (fs : FileSystem) (r : RemoteFile), fs r.absPath = none →
      RemoteFile.ResourceHash fs r = 666 ∧ RemoteFile.ResourceHash fs r ≠ 0) ∧
    (∀ (fs : FileSystem) (r1 r2 : RemoteFile),
      fs r1.absPath = none → fs r2.absPath = none →
      r1.sourceType = r2.sourceType → r1.destination = r2.destination →
      r1.vars = r2.vars → r1.template = r2.template → r1.perms = r2.perms →
      r1.disabled = r2.disabled →
      RemoteFile.Hash fs r1 = RemoteFile.Hash fs r2) := by
  constructor
  · intro fs r h
    simp [RemoteFile.ResourceHash, h]
  · intro fs r1 r2 h1 h2 hst hd hv ht hp hdis
    simp [RemoteFile.Hash, RemoteFile.ResourceHash, h1, h2, hst, hd, hv, ht,
      hp, hdis]

/-- Claim C7 witness: under a filesystem where nothing is readable, the two
fixture RemoteFiles — which differ in their asset paths — both get sentinel
666 and identical full checksums. -/
theorem c7_resource_hash_sentinel_witness :
    RemoteFile.ResourceHash c7NoFS c7FileA = 666 ∧
    RemoteFile.Hash c7NoFS c7FileA = RemoteFile.Hash c7NoFS c7FileB :=
  ⟨(c7_resource_hash_sentinel.1 c7NoFS c7FileA rfl).1,
   c7_resource_hash_sentinel.2 c7NoFS c7FileA c7FileB rfl rfl rfl rfl rfl rfl
     rfl rfl⟩

/-- Claim C8: in the SSH path of `UploadExecuteAndDelete`, an upload error
of the benign class (an SSH exit error with no signal, no message, exit
status exactly 1) is treated as success and the workflow proceeds to the
execute step; any other upload error aborts the workflow, is returned to
the caller, and the execute step never runs. -/
theorem c8_sftp_benign_exit_tolerated :
    (∀ (st : SSHStepResults),
      st.uploadErr = some (.sshExitError "" "" 1) →
      UploadExecuteAndDeleteSSH true true true true st =
        sshAfterUpload true true st ∧
      WorkflowStep.execute ∈ (UploadExecuteAndDeleteSSH true true true true st).1) ∧
    (∀ (st : SSHStepResults) (e : GoErr),
      st.uploadErr = some e → isBenignSFTPExit e = false →
      UploadExecuteAndDeleteSSH true true true true st =
        ([WorkflowStep.upload], some e) ∧
      WorkflowStep.execute ∉ (UploadExecuteAndDeleteSSH true true true true st).1) := by
  constructor
  · intro st h
    have h1 : UploadExecuteAndDeleteSSH true true true true st =
        sshAfterUpload true true st := by
      simp [UploadExecuteAndDeleteSSH, PerformInTimeout, h, isBenignSFTPExit]
    refine ⟨h1, ?_⟩
    rw [h1]
    unfold sshAfterUpload
    cases he : st.execErr <;> cases hd : st.deleteErr <;>
      simp [PerformInTimeout, he, hd]
  · intro st e h hb
    have h1 : UploadExecuteAndDeleteSSH true true true true st =
        ([WorkflowStep.upload], some e) := by
      simp [UploadExecuteAndDeleteSSH, PerformInTimeout, h, hb]
    refine ⟨h1, ?_⟩
    rw [h1]
    exact (by decide : WorkflowStep.execute ∉ [WorkflowStep.upload])

/-- Claim C8 witness: with the benign upload failure and succeeding later
steps, the workflow reaches execute (and delete) and returns success. -/
theorem c8_sftp_benign_exit_tolerated_witness :
    UploadExecuteAndDeleteSSH true true true true c8Steps =
      sshAfterUpload true true c8Steps ∧
    WorkflowStep.execute ∈ (UploadExecuteAndDeleteSSH true true true true c8Steps).1 :=
  c8_sftp_benign_exit_tolerated.1 c8Steps rfl

/-- Claim C9 counterexample: `Metadata.Label` on a nil dependency is not the
only process-aborting error path of the core — `RemoteFile.MD5Sum` passes
an `io.Copy` error to `log.Fatal` (remote_file.go, line 224), aborting the
process instead of returning the error. -/
theorem c9_single_exception_counterexample :
    ¬ (∀ (oe ce : Option GoErr) (d : String) (e : GoErr),
      RemoteFile.md5SumFlow oe ce d ≠ ProcResult.fatalExit e) := by
  intro h
  exact h none (some (GoErr.errorString "read failed")) ""
    (GoErr.errorString "read failed") rfl

/-- Claim C9 (amended): `Metadata.Label` panics exactly on a nil Dependency
and returns normally otherwise; but it is not the sole process-aborting
error path — `RemoteFile.MD5Sum` returns its open error as a value yet
aborts the process on a copy error. -/
theorem c9_panic_exceptions_amended :
    (∀ (m : Metadata), Metadata.Label none m =
      ProcResult.panicked ("could not find dependency for " ++ m.id)) ∧
    (∀ (d : Nat) (m : Metadata), ∃ s, Metadata.Label (some d) m = ProcResult.ret s) ∧
    (∀ (oe : GoErr) (ce : Option GoErr) (d : String),
      RemoteFile.md5SumFlow (some oe) ce d = ProcResult.ret ("", some oe)) ∧
    (∀ (ce : GoErr) (d : String),
      RemoteFile.md5SumFlow none (some ce) d = ProcResult.fatalExit ce) ∧
    (∀ (d : String), RemoteFile.md5SumFlow none none d = ProcResult.ret (d, none)) :=
  ⟨fun _ => rfl, fun _ m => ⟨_, rfl⟩, fun _ _ _ => rfl, fun _ _ => rfl,
   fun _ => rfl⟩

/-- Claim C9 witness: the two abort paths and the value-returning paths at
concrete inputs. -/
theorem c9_panic_exceptions_amended_witness :
    Metadata.Label none c9Meta =
      ProcResult.panicked ("could not find dependency for " ++ c9Meta.id) ∧
    (∃ s, Metadata.Label (some 42) c9Meta = ProcResult.ret s) ∧
    RemoteFile.md5SumFlow none (some (GoErr.errorString "io failure")) "d41d8" =
      ProcResult.fatalExit (GoErr.errorString "io failure") :=
  ⟨c9_panic_exceptions_amended.1 c9Meta,
   c9_panic_exceptions_amended.2.1 42 c9Meta,
   c9_panic_exceptions_amended.2.2.2.1 (GoErr.errorString "io failure") "d41d8"⟩

/-- Claim C10: every non-absolute path — the empty string included — is
classified `LFTypeCompetition` (not `LFTypeUnknown`), and is therefore a
global type; so an object whose ID was never assigned counts as a global
Competition object. -/
theorem c10_nonabs_competition :
    ∀ (p : String), goIsAbs p = false →
      TypeByPath p = LFType.competition ∧ IsGlobalType p = true := by
  intro p h
  have ht : TypeByPath p = LFType.competition := by
    simp [TypeByPath, h]
  refine ⟨ht, ?_⟩
  simp [IsGlobalType, ht]

/-- Claim C10 witness: the never-assigned (empty) ID is a global
Competition object. -/
theorem c10_nonabs_competition_witness :
    TypeByPath "" = LFType.competition ∧ IsGlobalType "" = true :=
  c10_nonabs_competition "" (by decide)

/-- Known XXH64 test vectors anchoring the hash embedding: the published
digests of the empty string and of `abc`. -/
theorem xxh64_test_vectors :
    Sum64String "" = 17241709254077376921 ∧
    Sum64String "abc" = 4952883123889572249 := by
  constructor <;> decide

/-- A string built from a non-empty character list is not the empty string. -/
theorem mk_cons_ne_empty (c : Char) (l : List Char) : String.mk (c :: l) ≠ "" :=
  fun h => List.noConfusion (congrArg String.data h)

/-- `path.Clean` never returns the empty string (it returns `.` instead). -/
theorem goCleanChars_ne_empty (l : List Char) : goCleanChars l ≠ "" := by
  cases l with
  | nil => decide
  | cons c cs =>
    simp only [goCleanChars]
    by_cases hc : c = '/'
    · rw [if_pos hc]
      exact mk_cons_ne_empty _ _
    · rw [if_neg hc]
      cases h : joinSegs (cleanSegs false (splitSlash (c :: cs))) with
      | nil => decide
      | cons b bs => exact mk_cons_ne_empty _ _

/-- `path.Join` with at least one non-empty element is non-empty. -/
theorem goJoin_ne_empty (l : List String) (h : ∃ e ∈ l, e ≠ "") :
    goJoin l ≠ "" := by
  induction l with
  | nil => rcases h with ⟨e, he, _⟩; cases he
  | cons a as ih =>
    unfold goJoin
    by_cases ha : a = ""
    · rw [if_pos ha]
      apply ih
      rcases h with ⟨e, he, hne⟩
      rcases List.mem_cons.mp he with rfl | hmem
      · exact absurd ha hne
      · exact ⟨e, hmem, hne⟩
    · rw [if_neg ha]
      exact goCleanChars_ne_empty _

/-- The provisioner-alias switch of `ProvisioningStep.SetID` never touches
the ID. -/
theorem setProvisionerAlias_id (p : ProvisioningStep) :
    (ProvisioningStep.setProvisionerAlias p).id = p.id := by
  cases hp : p.provisioner <;> simp [ProvisioningStep.setProvisionerAlias, hp]

/-- Claim C4 counterexample: a ProvisioningStep on a canonical path — built
by `SetID` itself — whose `ParentLaforgeID` is two directories up, which is
the owning ProvisionedHost's path, not the owning Build's path
(`/envs/e1/b1`). -/
theorem c4_parent_not_build_counterexample :
    c4Step.id = "/envs/e1/b1/teams/t1/networks/n1/hosts/h1/steps/0-s1" ∧
    ProvisioningStep.ParentLaforgeID c4Step =
      "/envs/e1/b1/teams/t1/networks/n1/hosts/h1" ∧
    TypeByPath (ProvisioningStep.ParentLaforgeID c4Step) =
      LFType.provisionedHost ∧
    TypeByPath "/envs/e1/b1" = LFType.build ∧
    ProvisioningStep.ParentLaforgeID c4Step ≠ "/envs/e1/b1" := by
  refine ⟨by decide, by decide, by decide, by decide, by decide⟩

/-- Claim C4 (amended): `ParentLaforgeID` of a ProvisionedNetwork and of a
ProvisioningStep is the path two directory levels up; on the canonical path
shapes that is the owning Team's path for a ProvisionedNetwork and the
owning ProvisionedHost's path for a ProvisioningStep — not the owning
Build's path. -/
theorem c4_parent_two_up_amended :
    (∀ (p : ProvisionedNetwork),
      ProvisionedNetwork.ParentLaforgeID p = goDir (goDir p.id)) ∧
    (∀ (p : ProvisioningStep),
      ProvisioningStep.ParentLaforgeID p = goDir (goDir p.id)) ∧
    (∀ (p : ProvisionedNetwork), p.id = "/envs/e1/b1/teams/t1/networks/n1" →
      ProvisionedNetwork.ParentLaforgeID p = "/envs/e1/b1/teams/t1" ∧
      TypeByPath (ProvisionedNetwork.ParentLaforgeID p) = LFType.team) ∧
    (∀ (p : ProvisioningStep),
      p.id = "/envs/e1/b1/teams/t1/networks/n1/hosts/h1/steps/0-s1" →
      ProvisioningStep.ParentLaforgeID p =
        "/envs/e1/b1/teams/t1/networks/n1/hosts/h1" ∧
      TypeByPath (ProvisioningStep.ParentLaforgeID p) = LFType.provisionedHost) := by
  refine ⟨fun p => rfl, fun p => rfl, ?_, ?_⟩
  · intro p h
    have hp : ProvisionedNetwork.ParentLaforgeID p = goDir (goDir p.id) := rfl
    rw [hp, h]
    exact ⟨by decide, by decide⟩
  · intro p h
    have hp : ProvisioningStep.ParentLaforgeID p = goDir (goDir p.id) := rfl
    rw [hp, h]
    exact ⟨by decide, by decide⟩

/-- Claim C4 witness: the canonical fixtures land on the Team and on the
ProvisionedHost respectively. -/
theorem c4_parent_two_up_amended_witness :
    ProvisionedNetwork.ParentLaforgeID c4PN = "/envs/e1/b1/teams/t1" ∧
    TypeByPath (ProvisionedNetwork.ParentLaforgeID c4PN) = LFType.team ∧
    ProvisioningStep.ParentLaforgeID c4Step =
      "/envs/e1/b1/teams/t1/networks/n1/hosts/h1" ∧
    TypeByPath (ProvisioningStep.ParentLaforgeID c4Step) =
      LFType.provisionedHost :=
  ⟨(c4_parent_two_up_amended.2.2.1 c4PN rfl).1,
   (c4_parent_two_up_amended.2.2.1 c4PN rfl).2,
   (c4_parent_two_up_amended.2.2.2 c4Step (by decide)).1,
   (c4_parent_two_up_amended.2.2.2 c4Step (by decide)).2⟩

/-- Claim C5 counterexample: a ProvisionedNetwork with a non-empty ID but
empty NetworkID — `SetID` returns the existing path yet mutates the object
(it fills NetworkID), so the call is not a no-op. -/
theorem c5_setid_not_noop_counterexample :
    c5PN.id ≠ "" ∧
    (ProvisionedNetwork.SetID c5PN).1 = c5PN.id ∧
    (ProvisionedNetwork.SetID c5PN).2 ≠ c5PN := by
  refine ⟨by decide, by decide, by decide⟩

/-- Claim C5 (amended): `SetID` never overwrites a non-empty ID and returns
the existing path, and calling it twice in succession yields the same path
both times; but only `Connection.SetID` is a full no-op on a non-empty ID —
`ProvisionedNetwork.SetID` still fills an empty NetworkID (no-op only when
NetworkID is already set), and `ProvisioningStep.SetID` always re-runs its
provisioner-alias assignment. -/
theorem c5_setid_amended :
    (∀ (c : Connection), c.id ≠ "" → Connection.SetID c = (c.id, c)) ∧
    (∀ (p : ProvisionedNetwork), p.id ≠ "" →
      (ProvisionedNetwork.SetID p).1 = p.id ∧
      ((ProvisionedNetwork.SetID p).2).id = p.id ∧
      (p.networkID ≠ "" → ProvisionedNetwork.SetID p = (p.id, p))) ∧
    (∀ (p : ProvisioningStep), p.id ≠ "" →
      (ProvisioningStep.SetID p).1 = p.id ∧
      ((ProvisioningStep.SetID p).2).id = p.id) ∧
    (∀ (c : Connection),
      (Connection.SetID (Connection.SetID c).2).1 = (Connection.SetID c).1) ∧
    (∀ (p : ProvisionedNetwork),
      (ProvisionedNetwork.SetID (ProvisionedNetwork.SetID p).2).1 =
        (ProvisionedNetwork.SetID p).1) ∧
    (∀ (p : ProvisioningStep),
      (ProvisioningStep.SetID (ProvisioningStep.SetID p).2).1 =
        (ProvisioningStep.SetID p).1) := by
  refine ⟨?_, ?_, ?_, ?_, ?_, ?_⟩
  · intro c h
    simp [Connection.SetID, h]
  · intro p h
    refine ⟨?_, ?_, ?_⟩
    · by_cases hnet : p.networkID = "" <;> simp [ProvisionedNetwork.SetID, h, hnet]
    · by_cases hnet : p.networkID = "" <;> simp [ProvisionedNetwork.SetID, h, hnet]
    · intro hnn
      simp [ProvisionedNetwork.SetID, h, hnn]
  · intro p h
    constructor <;> simp [ProvisioningStep.SetID, h, setProvisionerAlias_id]
  · intro c
    by_cases hc : c.id = ""
    · have hne : goJoin [c.provisionedHost.Path, "conn"] ≠ "" :=
        goJoin_ne_empty _ ⟨"conn", by simp, by decide⟩
      simp [Connection.SetID, hc, hne]
    · simp [Connection.SetID, hc]
  · intro p
    by_cases hid : p.id = ""
    · have hne : goJoin [p.team.Path, "networks", p.network.Base] ≠ "" :=
        goJoin_ne_empty _ ⟨"networks", by simp, by decide⟩
      by_cases hnet : p.networkID = "" <;>
        by_cases hnp : p.network.Path = "" <;>
          simp [ProvisionedNetwork.SetID, hid, hnet, hne, hnp]
    · by_cases hnet : p.networkID = "" <;>
        by_cases hnp : p.network.Path = "" <;>
          simp [ProvisionedNetwork.SetID, hid, hnet, hnp]
  · intro p
    by_cases hid : p.id = ""
    · have hne : goJoin [p.provisionedHost.Path, "steps",
          goInt p.stepNumber ++ "-" ++ Provisioner.Base p.provisioner] ≠ "" :=
        goJoin_ne_empty _ ⟨"steps", by simp, by decide⟩
      simp [ProvisioningStep.SetID, hid, hne, setProvisionerAlias_id]
    · simp [ProvisioningStep.SetID, hid, setProvisionerAlias_id]

/-- Claim C5 witness: on the fixtures with non-empty IDs, `SetID` returns
the existing path (and for the Connection is a full no-op). -/
theorem c5_setid_amended_witness :
    Connection.SetID c5Conn = (c5Conn.id, c5Conn) ∧
    (ProvisionedNetwork.SetID c5PN).1 = c5PN.id ∧
    ((ProvisionedNetwork.SetID c5PN).2).id = c5PN.id ∧
    (ProvisioningStep.SetID c5Step).1 = c5Step.id :=
  ⟨c5_setid_amended.1 c5Conn (by decide),
   (c5_setid_amended.2.1 c5PN (by decide)).1,
   (c5_setid_amended.2.1 c5PN (by decide)).2.1,
   (c5_setid_amended.2.2.1 c5Step (by decide)).1⟩

/-- A path whose last character is a slash cannot match the generic path
regexp (its final character class is `[a-z0-9]`). -/
theorem matchesGenericChars_trailing_slash (l : List Char)
    (h : l.getLast? = some '/') : matchesGenericChars l = false := by
  cases l with
  | nil => rfl
  | cons c rest =>
    cases rest with
    | nil =>
      simp [matchesGenericChars]
    | cons r rs =>
      rw [List.getLast?_cons_cons] at h
      have hsl : isLowerAlnumChar '/' = false := by decide
      simp [matchesGenericChars, h, hsl]

/-- A path containing an ASCII uppercase letter cannot match the generic
path regexp (every position's character class excludes uppercase). -/
theorem matchesGenericChars_upper (l : List Char) (c : Char) (hc : c ∈ l)
    (hu : isUpperChar c = true) : matchesGenericChars l = false := by
  have hup : 65 ≤ c.toNat ∧ c.toNat ≤ 90 := by simpa [isUpperChar] using hu
  by_contra hmt
  rw [Bool.not_eq_false] at hmt
  cases l with
  | nil => cases hc
  | cons a rest =>
    simp only [matchesGenericChars, Bool.and_eq_true, decide_eq_true_eq] at hmt
    obtain ⟨⟨⟨ha47, hlen⟩, hall⟩, hlast⟩ := hmt
    have hne : rest ≠ [] := by
      intro h0
      rw [h0] at hlen
      simp at hlen
    rcases List.mem_cons.mp hc with rfl | hmem
    · omega
    · have hsplit := List.dropLast_append_getLast hne
      rw [← hsplit] at hmem
      rcases List.mem_append.mp hmem with hmem1 | hmem2
      · rw [List.all_eq_true] at hall
        have hclass := hall c hmem1
        simp only [isPathClassChar, Bool.or_eq_true, Bool.and_eq_true,
          decide_eq_true_eq] at hclass
        omega
      · have hc2 : c = rest.getLast hne := by simpa using hmem2
        rw [List.getLast?_eq_getLast_of_ne_nil hne] at hlast
        simp only [Option.map_some', Option.getD_some] at hlast
        rw [← hc2] at hlast
        simp only [isLowerAlnumChar, Bool.or_eq_true, Bool.and_eq_true,
          decide_eq_true_eq] at hlast
        omega

/-- Claim C6 counterexample: a path with a trailing slash is rejected with
`ErrPathContainsInvalidChars`, not `ErrPathEndsInSlash` — the trailing
slash already fails the regexp, which is checked first, so the dedicated
trailing-slash error is unreachable. -/
theorem c6_trailing_slash_counterexample :
    ValidateGenericPath "/networks/dmz/" = some GoErr.pathContainsInvalidChars ∧
    ValidateGenericPath "/networks/dmz/" ≠ some GoErr.pathEndsInSlash := by
  refine ⟨by decide, by decide⟩

/-- Claim C6 (amended): `ValidateGenericPath` accepts the three sample
paths; rejects the empty path, paths with uppercase characters, and paths
with a trailing slash, all with `ErrPathContainsInvalidChars`; rejects
regexp-conforming paths containing `//` with
`ErrPathContainsDuplicateSlash`; never returns `ErrPathEndsInSlash`; and
returns ok exactly for paths that match the generic regexp and contain no
consecutive slashes. -/
theorem c6_validate_path_amended :
    ValidateGenericPath "/commands/recon-script" = none ∧
    ValidateGenericPath "/networks/dmz" = none ∧
    ValidateGenericPath "/envs/ctf2024/build1/teams/team-01/networks/dmz" = none ∧
    ValidateGenericPath "" = some GoErr.pathContainsInvalidChars ∧
    ValidateGenericPath "/networks//dmz" = some GoErr.pathContainsDuplicateSlash ∧
    (∀ (p : String), ValidateGenericPath p ≠ some GoErr.pathEndsInSlash) ∧
    (∀ (p : String), p.data.getLast? = some '/' →
      ValidateGenericPath p = some GoErr.pathContainsInvalidChars) ∧
    (∀ (p : String) (c : Char), c ∈ p.data → isUpperChar c = true →
      ValidateGenericPath p = some GoErr.pathContainsInvalidChars) ∧
    (∀ (p : String), matchesGenericPath p = true → hasDoubleSlash p.data = true →
      ValidateGenericPath p = some GoErr.pathContainsDuplicateSlash) ∧
    (∀ (p : String), ValidateGenericPath p = none ↔
      (matchesGenericPath p = true ∧ hasDoubleSlash p.data = false)) := by
  refine ⟨by decide, by decide, by decide, by decide, by decide, ?_, ?_, ?_, ?_, ?_⟩
  · intro p
    unfold ValidateGenericPath
    by_cases h1 : matchesGenericPath p = false
    · simp [h1]
    · by_cases h2 : hasDoubleSlash p.data <;> simp [h1, h2]
  · intro p h
    have hm : matchesGenericPath p = false :=
      matchesGenericChars_trailing_slash p.data h
    simp [ValidateGenericPath, hm]
  · intro p c hc hu
    have hm : matchesGenericPath p = false :=
      matchesGenericChars_upper p.data c hc hu
    simp [ValidateGenericPath, hm]
  · intro p h1 h2
    simp [ValidateGenericPath, h1, h2]
  · intro p
    unfold ValidateGenericPath
    by_cases h1 : matchesGenericPath p = false
    · simp [h1]
    · have h1t : matchesGenericPath p = true := by
        revert h1
        cases matchesGenericPath p <;> simp
      by_cases h2 : hasDoubleSlash p.data <;> simp [h1t, h2]

/-- Claim C6 witness: the general rejection rules applied at concrete
inputs — a trailing slash and an uppercase letter both give the
invalid-characters error, and a duplicate slash in an otherwise conforming
path gives the duplicate-slash error. -/
theorem c6_validate_path_amended_witness :
    ValidateGenericPath "/abc/" = some GoErr.pathContainsInvalidChars ∧
    ValidateGenericPath "/Networks/dmz" = some GoErr.pathContainsInvalidChars ∧
    ValidateGenericPath "/a//bcd" = some GoErr.pathContainsDuplicateSlash :=
  ⟨c6_validate_path_amended.2.2.2.2.2.2.1 "/abc/" (by decide),
   c6_validate_path_amended.2.2.2.2.2.2.2.1 "/Networks/dmz" 'N' (by decide)
     (by decide),
   c6_validate_path_amended.2.2.2.2.2.2.2.2.1 "/a//bcd" (by decide) (by decide)⟩
